import Mathlib

/-!
Verification of the simple-banking-api core: the transaction
amount-normalization and validation protocol, and the idempotency-key
middleware. Definitions are shallow embeddings of the Go source
(internal/core/domain, internal/core/services/processors,
internal/server/handlers, and the idempotency middleware). Go float64
amounts are modelled as rationals: all properties proved are about sign
and magnitude, on which the two agree for every finite non-NaN value.
Go errors are modelled as values carrying their identity (sentinel
errors compared with switch) and their message string.
-/

namespace Banking

/-! ## Domain model (internal/core/domain/operation_type.go) -/

structure OperationType where
  id : Int
  description : String
  deriving Repr, DecidableEq

def OperationTypePurchase : Int := 1

def OperationTypePurchaseWithInstallments : Int := 2

def OperationTypeWithdrawal : Int := 3

def OperationTypeCreditVoucher : Int := 4

/-- IsDebitOperation checks if the operation type should result in a negative amount. -/
def OperationType.IsDebitOperation (ot : OperationType) : Bool :=
  ot.id == OperationTypePurchase ||
    ot.id == OperationTypePurchaseWithInstallments ||
    ot.id == OperationTypeWithdrawal

/-- IsCreditOperation checks if the operation type should result in a positive amount. -/
def OperationType.IsCreditOperation (ot : OperationType) : Bool :=
  ot.id == OperationTypeCreditVoucher

/-! ## Domain model (internal/core/domain/transaction.go) -/

structure Transaction where
  id : Int
  accountID : Int
  operationTypeID : Int
  amount : Rat
  eventDate : Int
  deriving Repr, DecidableEq

/-- Go error values: the three exported sentinels compared by identity in the
handler switch, and fresh errors built by errors.New or fmt.Errorf. -/
inductive AppError where
  | errInvalidAccountID
  | errInvalidOperationType
  | errZeroAmount
  | fresh (msg : String)
  deriving Repr, DecidableEq

def AppError.message : AppError → String
  | .errInvalidAccountID => "account_id must be greater than 0"
  | .errInvalidOperationType => "operation_type_id must be between 1 and 4"
  | .errZeroAmount => "amount cannot be zero"
  | .fresh msg => msg

/-- Transaction.Validate: the Go method returns fresh errors.New values. -/
def Transaction.Validate (t : Transaction) : Option AppError :=
  if t.accountID ≤ 0 then
    some (.fresh "account_id must be greater than 0")
  else if t.operationTypeID < 1 ∨ t.operationTypeID > 4 then
    some (.fresh "operation_type_id must be between 1 and 4")
  else if t.amount = 0 then
    some (.fresh "amount cannot be zero")
  else
    none

/-- Transaction.NormalizeAmount: adjusts the amount sign based on the
operation type. The Go method takes a possibly-nil pointer, mutates the
receiver and returns an error; here it returns the updated transaction. -/
def Transaction.NormalizeAmount (t : Transaction) (operationType : Option OperationType) :
    Except String Transaction :=
  match operationType with
  | none => .error "operation type cannot be nil"
  | some ot =>
    let absAmount := |t.amount|
    if ot.IsDebitOperation then
      .ok { t with amount := -absAmount }
    else if ot.IsCreditOperation then
      .ok { t with amount := absAmount }
    else
      .ok t

/-! ## Claims C1, C9, C10: amount normalization -/

/-- Claim C1: for each of the four known operation types, the canonical
amount is minus the absolute value for the debit-classified types 1, 2, 3
and plus the absolute value for the credit-classified type 4, and the
client-submitted sign never matters: negating the submitted amount leaves
the normalization result unchanged. -/
theorem normalize_sign_forced_by_classification (t : Transaction) (ot : OperationType) :
    (ot.id = OperationTypePurchase ∨ ot.id = OperationTypePurchaseWithInstallments ∨
        ot.id = OperationTypeWithdrawal →
      t.NormalizeAmount (some ot) = .ok { t with amount := -|t.amount| })
    ∧ (ot.id = OperationTypeCreditVoucher →
      t.NormalizeAmount (some ot) = .ok { t with amount := |t.amount| })
    ∧ (1 ≤ ot.id ∧ ot.id ≤ 4 →
      Transaction.NormalizeAmount { t with amount := -t.amount } (some ot) =
        t.NormalizeAmount (some ot)) := by
  refine ⟨?_, ?_, ?_⟩
  · rintro (h | h | h) <;>
      simp [Transaction.NormalizeAmount, OperationType.IsDebitOperation,
        OperationTypePurchase, OperationTypePurchaseWithInstallments,
        OperationTypeWithdrawal, h]
  · intro h
    simp [Transaction.NormalizeAmount, OperationType.IsDebitOperation,
      OperationType.IsCreditOperation, OperationTypePurchase,
      OperationTypePurchaseWithInstallments, OperationTypeWithdrawal,
      OperationTypeCreditVoucher, h]
  · intro h
    have hid : ot.id = 1 ∨ ot.id = 2 ∨ ot.id = 3 ∨ ot.id = 4 := by omega
    rcases hid with h1 | h1 | h1 | h1 <;>
      simp [Transaction.NormalizeAmount, OperationType.IsDebitOperation,
        OperationType.IsCreditOperation, OperationTypePurchase,
        OperationTypePurchaseWithInstallments, OperationTypeWithdrawal,
        OperationTypeCreditVoucher, h1]

theorem normalize_sign_forced_by_classification_witness :
    (Transaction.NormalizeAmount ⟨0, 1, 4, -5, 0⟩ (some ⟨4, "Credit Voucher"⟩) =
        .ok { (⟨0, 1, 4, -5, 0⟩ : Transaction) with amount := |(-5 : Rat)| })
    ∧ (Transaction.NormalizeAmount
          { (⟨0, 1, 4, -5, 0⟩ : Transaction) with amount := -(-5 : Rat) }
          (some ⟨4, "Credit Voucher"⟩) =
        Transaction.NormalizeAmount ⟨0, 1, 4, -5, 0⟩ (some ⟨4, "Credit Voucher"⟩)) := by
  have h := normalize_sign_forced_by_classification ⟨0, 1, 4, -5, 0⟩ ⟨4, "Credit Voucher"⟩
  exact ⟨h.2.1 (by decide), h.2.2 (by decide)⟩

/-- Claim C9: normalization is sign-idempotent and magnitude-preserving for
every resolved (known) operation type and non-zero amount: the magnitude of
the result equals the magnitude of the input, an already-correctly-signed
amount is returned unchanged, an incorrectly-signed amount is returned with
only its sign flipped, and normalizing twice equals normalizing once. -/
theorem normalize_sign_idempotent (t : Transaction) (ot : OperationType)
    (hlo : 1 ≤ ot.id) (hhi : ot.id ≤ 4) (hnz : t.amount ≠ 0) :
    (∀ u, t.NormalizeAmount (some ot) = .ok u → |u.amount| = |t.amount|)
    ∧ (ot.IsDebitOperation = true → t.amount < 0 → t.NormalizeAmount (some ot) = .ok t)
    ∧ (ot.IsCreditOperation = true → 0 < t.amount → t.NormalizeAmount (some ot) = .ok t)
    ∧ (ot.IsDebitOperation = true → 0 < t.amount →
      t.NormalizeAmount (some ot) = .ok { t with amount := -t.amount })
    ∧ (ot.IsCreditOperation = true → t.amount < 0 →
      t.NormalizeAmount (some ot) = .ok { t with amount := -t.amount })
    ∧ (∀ u, t.NormalizeAmount (some ot) = .ok u →
      u.NormalizeAmount (some ot) = .ok u) := by
  have hid : ot.id = 1 ∨ ot.id = 2 ∨ ot.id = 3 ∨ ot.id = 4 := by omega
  have hneg : |t.amount| = t.amount ∨ |t.amount| = -t.amount := abs_choice t.amount
  refine ⟨?_, ?_, ?_, ?_, ?_, ?_⟩
  · intro u hu
    rcases hid with h1 | h1 | h1 | h1 <;>
      simp only [Transaction.NormalizeAmount, OperationType.IsDebitOperation,
        OperationType.IsCreditOperation, OperationTypePurchase,
        OperationTypePurchaseWithInstallments, OperationTypeWithdrawal,
        OperationTypeCreditVoucher, h1] at hu <;>
      simp at hu <;> rw [← hu] <;> simp [abs_abs]
  · intro hd hneg
    have habs : |t.amount| = -t.amount := abs_of_neg hneg
    simp [Transaction.NormalizeAmount, hd, habs]
  · intro hc hpos
    have hd : ot.IsDebitOperation = false := by
      rcases hid with h1 | h1 | h1 | h1 <;>
        simp [OperationType.IsCreditOperation, OperationTypeCreditVoucher, h1] at hc ⊢ <;>
        simp [OperationType.IsDebitOperation, OperationTypePurchase,
          OperationTypePurchaseWithInstallments, OperationTypeWithdrawal, h1]
    have habs : |t.amount| = t.amount := abs_of_pos hpos
    simp [Transaction.NormalizeAmount, hd, hc, habs]
  · intro hd hpos
    have habs : |t.amount| = t.amount := abs_of_pos hpos
    simp [Transaction.NormalizeAmount, hd, habs]
  · intro hc hneg
    have hd : ot.IsDebitOperation = false := by
      rcases hid with h1 | h1 | h1 | h1 <;>
        simp [OperationType.IsCreditOperation, OperationTypeCreditVoucher, h1] at hc ⊢ <;>
        simp [OperationType.IsDebitOperation, OperationTypePurchase,
          OperationTypePurchaseWithInstallments, OperationTypeWithdrawal, h1]
    have habs : |t.amount| = -t.amount := abs_of_neg hneg
    simp [Transaction.NormalizeAmount, hd, hc, habs]
  · intro u hu
    rcases hid with h1 | h1 | h1 | h1 <;>
      simp only [Transaction.NormalizeAmount, OperationType.IsDebitOperation,
        OperationType.IsCreditOperation, OperationTypePurchase,
        OperationTypePurchaseWithInstallments, OperationTypeWithdrawal,
        OperationTypeCreditVoucher, h1] at hu ⊢ <;>
      simp at hu ⊢ <;> rw [← hu] <;> simp [abs_abs]

theorem normalize_sign_idempotent_witness :
    (∀ u, Transaction.NormalizeAmount ⟨0, 1, 1, 7, 0⟩ (some ⟨1, "Normal Purchase"⟩) = .ok u →
      |u.amount| = |(7 : Rat)|)
    ∧ (∀ u, Transaction.NormalizeAmount ⟨0, 1, 1, 7, 0⟩ (some ⟨1, "Normal Purchase"⟩) = .ok u →
      u.NormalizeAmount (some ⟨1, "Normal Purchase"⟩) = .ok u) := by
  have h := normalize_sign_idempotent ⟨0, 1, 1, 7, 0⟩ ⟨1, "Normal Purchase"⟩
    (by decide) (by decide) (by decide)
  exact ⟨h.1, h.2.2.2.2.2⟩

/-- Claim C10: for an operation type outside the four known identifiers,
NormalizeAmount succeeds and returns the transaction unchanged, submitted
sign included; the only rejected input is a nil operation type, and every
non-nil operation type yields a successful result. -/
theorem normalize_unknown_type_passthrough (t : Transaction) (ot : OperationType) :
    (ot.id ≠ 1 → ot.id ≠ 2 → ot.id ≠ 3 → ot.id ≠ 4 →
      t.NormalizeAmount (some ot) = .ok t)
    ∧ t.NormalizeAmount none = .error "operation type cannot be nil"
    ∧ ∃ u, t.NormalizeAmount (some ot) = .ok u := by
  refine ⟨?_, rfl, ?_⟩
  · intro h1 h2 h3 h4
    have hd : ot.IsDebitOperation = false := by
      simp [OperationType.IsDebitOperation, OperationTypePurchase,
        OperationTypePurchaseWithInstallments, OperationTypeWithdrawal, h1, h2, h3]
    have hc : ot.IsCreditOperation = false := by
      simp [OperationType.IsCreditOperation, OperationTypeCreditVoucher, h4]
    simp [Transaction.NormalizeAmount, hd, hc]
  · by_cases hd : ot.IsDebitOperation = true
    · exact ⟨{ t with amount := -|t.amount| }, by simp [Transaction.NormalizeAmount, hd]⟩
    · by_cases hc : ot.IsCreditOperation = true
      · refine ⟨{ t with amount := |t.amount| }, ?_⟩
        simp only [Bool.not_eq_true] at hd
        simp [Transaction.NormalizeAmount, hd, hc]
      · refine ⟨t, ?_⟩
        simp only [Bool.not_eq_true] at hd hc
        simp [Transaction.NormalizeAmount, hd, hc]

theorem normalize_unknown_type_passthrough_witness :
    Transaction.NormalizeAmount ⟨0, 1, 99, -3, 0⟩ (some ⟨99, "unknown"⟩) =
      .ok ⟨0, 1, 99, -3, 0⟩ :=
  (normalize_unknown_type_passthrough ⟨0, 1, 99, -3, 0⟩ ⟨99, "unknown"⟩).1
    (by decide) (by decide) (by decide) (by decide)

/-! ## Substring containment (Go strings.Contains, also the hand-rolled
contains helper of the get-transactions handler) -/

/-- True when the first list is an initial segment of the second. -/
def charsLeadWith : List Char → List Char → Bool
  | [], _ => true
  | _ :: _, [] => false
  | p :: ps, s :: ss => p == s && charsLeadWith ps ss

/-- True when the pattern occurs contiguously somewhere in the list. -/
def charsContain : List Char → List Char → Bool
  | s, pat =>
    if charsLeadWith pat s then true
    else
      match s with
      | [] => false
      | _ :: rest => charsContain rest pat

/-- Go strings.Contains (and the equivalent hand-rolled contains in the
get-transactions handler): substring containment. -/
def strContains (s pat : String) : Bool :=
  charsContain s.data pat.data

theorem charsLeadWith_append (p s t : List Char) (h : charsLeadWith p s = true) :
    charsLeadWith p (s ++ t) = true := by
  induction p generalizing s with
  | nil => simp [charsLeadWith]
  | cons c cs ih =>
    cases s with
    | nil => simp [charsLeadWith] at h
    | cons d ds =>
      simp only [charsLeadWith, Bool.and_eq_true] at h
      simp only [List.cons_append, charsLeadWith, Bool.and_eq_true]
      exact ⟨h.1, ih ds h.2⟩

theorem charsContain_of_leadWith (s pat : List Char) (h : charsLeadWith pat s = true) :
    charsContain s pat = true := by
  unfold charsContain
  simp [h]

/-- If the pattern is a leading segment of s, the concatenation s ++ t
contains the pattern. -/
theorem strContains_of_append (s t pat : String) (h : charsLeadWith pat.data s.data = true) :
    strContains (s ++ t) pat = true := by
  unfold strContains
  rw [String.data_append]
  exact charsContain_of_leadWith _ _ (charsLeadWith_append _ _ _ h)

/-! ## Create-transaction pipeline
(internal/server/handlers/create_transaction_handler.go and the
CreateTransactionProcessor of internal/core/services/processors) -/

structure Account where
  id : Int
  documentNumber : String
  createdAt : Int
  deriving Repr, DecidableEq

structure CreateTransactionRequest where
  accountID : Int
  operationTypeID : Int
  amount : Rat
  deriving Repr, DecidableEq

structure CreateTransactionResponse where
  transactionID : Int
  accountID : Int
  operationTypeID : Int
  amount : Rat
  eventDate : Int
  deriving Repr, DecidableEq

/-- One call made to a storage collaborator, in order. -/
inductive CollabCall where
  | accountFindByID (id : Int)
  | opTypeFindByID (id : Int)
  | transactionCreate (t : Transaction)
  deriving Repr, DecidableEq

/-- The injected storage collaborators (ports). A Go (value, error) pair is
an Except: error msg for a non-nil error, ok none for (nil, nil), ok some
for a found value. -/
structure Collaborators where
  accountFindByID : Int → Except String (Option Account)
  opTypeFindByID : Int → Except String (Option OperationType)
  transactionCreate : Transaction → Except String Transaction

/-- CreateTransactionProcessor.Process, also returning the ordered list of
collaborator calls it made. -/
def CreateTransactionProcessor.Process (c : Collaborators) (now : Int)
    (req : CreateTransactionRequest) :
    Except AppError CreateTransactionResponse × List CollabCall :=
  match c.accountFindByID req.accountID with
  | .error msg =>
    (.error (.fresh ("account not found: " ++ msg)), [.accountFindByID req.accountID])
  | .ok none =>
    (.error (.fresh ("account with id " ++ toString req.accountID ++ " does not exist")),
      [.accountFindByID req.accountID])
  | .ok (some _account) =>
    match c.opTypeFindByID req.operationTypeID with
    | .error msg =>
      (.error (.fresh ("operation type not found: " ++ msg)),
        [.accountFindByID req.accountID, .opTypeFindByID req.operationTypeID])
    | .ok none =>
      (.error .errInvalidOperationType,
        [.accountFindByID req.accountID, .opTypeFindByID req.operationTypeID])
    | .ok (some operationType) =>
      let transaction : Transaction :=
        { id := 0, accountID := req.accountID, operationTypeID := req.operationTypeID,
          amount := req.amount, eventDate := now }
      match transaction.Validate with
      | some e =>
        (.error e, [.accountFindByID req.accountID, .opTypeFindByID req.operationTypeID])
      | none =>
        match transaction.NormalizeAmount (some operationType) with
        | .error msg =>
          (.error (.fresh msg),
            [.accountFindByID req.accountID, .opTypeFindByID req.operationTypeID])
        | .ok normalized =>
          match c.transactionCreate normalized with
          | .error msg =>
            (.error (.fresh ("failed to create transaction: " ++ msg)),
              [.accountFindByID req.accountID, .opTypeFindByID req.operationTypeID,
                .transactionCreate normalized])
          | .ok created =>
            (.ok { transactionID := created.id, accountID := created.accountID,
                   operationTypeID := created.operationTypeID, amount := created.amount,
                   eventDate := created.eventDate },
              [.accountFindByID req.accountID, .opTypeFindByID req.operationTypeID,
                .transactionCreate normalized])

/-- CreateTransactionHandler.validateRequest: returns the exported sentinel
errors, compared by identity. -/
def validateRequest (req : CreateTransactionRequest) : Option AppError :=
  if req.accountID ≤ 0 then some .errInvalidAccountID
  else if req.operationTypeID < 1 ∨ req.operationTypeID > 4 then some .errInvalidOperationType
  else if req.amount = 0 then some .errZeroAmount
  else none

/-- The body written back: respondWithError carries a message,
respondWithJSON a created-transaction payload. -/
inductive HandlerBody where
  | errMsg (s : String)
  | success (r : CreateTransactionResponse)
  deriving Repr, DecidableEq

/-- CreateTransactionHandler.Handle: body is the decoded JSON request (none
for a malformed body); result is the HTTP status, the response body, and the
collaborator calls made. -/
def CreateTransactionHandler.Handle (c : Collaborators) (now : Int)
    (body : Option CreateTransactionRequest) : (Nat × HandlerBody) × List CollabCall :=
  match body with
  | none => ((400, .errMsg "Invalid request body"), [])
  | some req =>
    match validateRequest req with
    | some e => ((400, .errMsg e.message), [])
    | none =>
      match CreateTransactionProcessor.Process c now req with
      | (.error e, calls) =>
        match e with
        | .errInvalidOperationType => ((400, .errMsg e.message), calls)
        | .errZeroAmount => ((400, .errMsg e.message), calls)
        | _ =>
          let errMsg := e.message
          if strContains errMsg "account not found" || strContains errMsg "account with id" ||
              strContains errMsg "does not exist" then
            ((404, .errMsg errMsg), calls)
          else
            ((500, .errMsg "Failed to create transaction"), calls)
      | (.ok resp, calls) => ((201, .success resp), calls)

/-! ## Claims C5, C7: validation order and error mapping -/

/-- Claim C5: validation checks run in the fixed order account-id positive,
operation-type in 1..4, amount non-zero, account exists, operation type
exists; the first failing check produces the terminal error, no lookup
collaborator is called when one of the first three checks fails, and a
failing lookup check makes no further collaborator call. -/
theorem create_transaction_validation_order (c : Collaborators) (now : Int)
    (req : CreateTransactionRequest) :
    (req.accountID ≤ 0 →
      CreateTransactionHandler.Handle c now (some req) =
        ((400, .errMsg "account_id must be greater than 0"), []))
    ∧ (0 < req.accountID → req.operationTypeID < 1 ∨ req.operationTypeID > 4 →
      CreateTransactionHandler.Handle c now (some req) =
        ((400, .errMsg "operation_type_id must be between 1 and 4"), []))
    ∧ (0 < req.accountID → 1 ≤ req.operationTypeID → req.operationTypeID ≤ 4 →
      req.amount = 0 →
      CreateTransactionHandler.Handle c now (some req) =
        ((400, .errMsg "amount cannot be zero"), []))
    ∧ (0 < req.accountID → 1 ≤ req.operationTypeID → req.operationTypeID ≤ 4 →
      req.amount ≠ 0 → c.accountFindByID req.accountID = .ok none →
      CreateTransactionHandler.Handle c now (some req) =
        ((404, .errMsg ("account with id " ++ toString req.accountID ++ " does not exist")),
          [.accountFindByID req.accountID]))
    ∧ (∀ a, 0 < req.accountID → 1 ≤ req.operationTypeID → req.operationTypeID ≤ 4 →
      req.amount ≠ 0 → c.accountFindByID req.accountID = .ok (some a) →
      c.opTypeFindByID req.operationTypeID = .ok none →
      CreateTransactionHandler.Handle c now (some req) =
        ((400, .errMsg "operation_type_id must be between 1 and 4"),
          [.accountFindByID req.accountID, .opTypeFindByID req.operationTypeID])) := by
  refine ⟨?_, ?_, ?_, ?_, ?_⟩
  · intro h1
    simp [CreateTransactionHandler.Handle, validateRequest, h1, AppError.message]
  · intro h1 h2
    simp [CreateTransactionHandler.Handle, validateRequest, not_le.mpr h1, h2,
      AppError.message]
  · intro h1 h2 h3 h4
    have hop : ¬(req.operationTypeID < 1 ∨ req.operationTypeID > 4) := by omega
    simp [CreateTransactionHandler.Handle, validateRequest, not_le.mpr h1, hop, h4,
      AppError.message]
  · intro h1 h2 h3 h4 hacc
    have hop : ¬(req.operationTypeID < 1 ∨ req.operationTypeID > 4) := by omega
    have hmsg : strContains
        ("account with id " ++ toString req.accountID ++ " does not exist")
        "account with id" = true := by
      apply strContains_of_append
      rw [String.data_append]
      exact charsLeadWith_append _ _ _ (by decide)
    simp [CreateTransactionHandler.Handle, validateRequest, not_le.mpr h1, hop, h4,
      CreateTransactionProcessor.Process, hacc, AppError.message, hmsg]
  · intro a h1 h2 h3 h4 hacc hop'
    have hop : ¬(req.operationTypeID < 1 ∨ req.operationTypeID > 4) := by omega
    simp [CreateTransactionHandler.Handle, validateRequest, not_le.mpr h1, hop, h4,
      CreateTransactionProcessor.Process, hacc, hop', AppError.message]

theorem create_transaction_validation_order_witness :
    (CreateTransactionHandler.Handle
        (⟨fun _ => .ok none, fun _ => .ok none, fun t => .ok t⟩ : Collaborators) 0
        (some ⟨0, 9, 0⟩) =
      ((400, .errMsg "account_id must be greater than 0"), []))
    ∧ (CreateTransactionHandler.Handle
        (⟨fun _ => .ok none, fun _ => .ok none, fun t => .ok t⟩ : Collaborators) 0
        (some ⟨7, 2, 50⟩) =
      ((404, .errMsg ("account with id " ++ toString (7 : Int) ++ " does not exist")),
        [.accountFindByID 7])) := by
  constructor
  · exact (create_transaction_validation_order
      ⟨fun _ => .ok none, fun _ => .ok none, fun t => .ok t⟩ 0 ⟨0, 9, 0⟩).1 (by decide)
  · exact (create_transaction_validation_order
      ⟨fun _ => .ok none, fun _ => .ok none, fun t => .ok t⟩ 0 ⟨7, 2, 50⟩).2.2.2.1
      (by decide) (by decide) (by decide) (by decide) rfl

/-- Claim C7 counterexample: a connectivity failure from the account-lookup
collaborator (error message "connection refused") on a request that passes
validation is answered with status 404, not the 500 the claim requires: the
processor wraps the lookup error as "account not found: ..." and the handler
string-matches that phrase to the not-found status. -/
theorem storage_failure_maps_404_counterexample :
    (CreateTransactionHandler.Handle
        (⟨fun _ => .error "connection refused", fun _ => .ok none, fun t => .ok t⟩ :
          Collaborators) 0 (some ⟨1, 1, 50⟩)).1.1 = 404 := by
  decide

/-- Claim C7 amended: a failure from the operation-type lookup or from the
transaction-store write is surfaced with the generic 500 status, distinct
from 400 and 404, provided its wrapped message does not itself contain one
of the handler's not-found phrases; but a failure from the account-lookup
collaborator is wrapped as "account not found: ..." and mapped to 404, so a
connectivity error from the account lookup IS reported as account-not-found. -/
theorem storage_failure_status_mapping (c : Collaborators) (now : Int)
    (req : CreateTransactionRequest) (a : Account)
    (h1 : 0 < req.accountID) (h2 : 1 ≤ req.operationTypeID) (h3 : req.operationTypeID ≤ 4)
    (h4 : req.amount ≠ 0) :
    (∀ msg, c.accountFindByID req.accountID = .error msg →
      (CreateTransactionHandler.Handle c now (some req)).1 =
        (404, .errMsg ("account not found: " ++ msg)))
    ∧ (∀ msg, c.accountFindByID req.accountID = .ok (some a) →
      c.opTypeFindByID req.operationTypeID = .error msg →
      strContains ("operation type not found: " ++ msg) "account not found" = false →
      strContains ("operation type not found: " ++ msg) "account with id" = false →
      strContains ("operation type not found: " ++ msg) "does not exist" = false →
      (CreateTransactionHandler.Handle c now (some req)).1 =
        (500, .errMsg "Failed to create transaction"))
    ∧ (∀ ot msg, c.accountFindByID req.accountID = .ok (some a) →
      c.opTypeFindByID req.operationTypeID = .ok (some ot) →
      (∀ u, c.transactionCreate u = .error msg) →
      strContains ("failed to create transaction: " ++ msg) "account not found" = false →
      strContains ("failed to create transaction: " ++ msg) "account with id" = false →
      strContains ("failed to create transaction: " ++ msg) "does not exist" = false →
      (CreateTransactionHandler.Handle c now (some req)).1 =
        (500, .errMsg "Failed to create transaction")) := by
  have hop : ¬(req.operationTypeID < 1 ∨ req.operationTypeID > 4) := by omega
  refine ⟨?_, ?_, ?_⟩
  · intro msg hacc
    have hmsg : strContains ("account not found: " ++ msg) "account not found" = true := by
      exact strContains_of_append _ _ _ (by decide)
    simp [CreateTransactionHandler.Handle, validateRequest, not_le.mpr h1, hop, h4,
      CreateTransactionProcessor.Process, hacc, AppError.message, hmsg]
  · intro msg hacc hopt hs1 hs2 hs3
    simp [CreateTransactionHandler.Handle, validateRequest, not_le.mpr h1, hop, h4,
      CreateTransactionProcessor.Process, hacc, hopt, AppError.message, hs1, hs2, hs3]
  · intro ot msg hacc hopt hcreate hs1 hs2 hs3
    have hval : Transaction.Validate
        { id := 0, accountID := req.accountID, operationTypeID := req.operationTypeID,
          amount := req.amount, eventDate := now } = none := by
      simp [Transaction.Validate, not_le.mpr h1, hop, h4]
    simp only [CreateTransactionHandler.Handle, validateRequest, not_le.mpr h1, hop, h4,
      CreateTransactionProcessor.Process, hacc, hopt, hval, if_neg, if_false]
    rcases hnorm : Transaction.NormalizeAmount
        { id := 0, accountID := req.accountID, operationTypeID := req.operationTypeID,
          amount := req.amount, eventDate := now } (some ot) with msg' | normalized
    · rcases (normalize_unknown_type_passthrough
        { id := 0, accountID := req.accountID, operationTypeID := req.operationTypeID,
          amount := req.amount, eventDate := now } ot).2.2 with ⟨u, hu⟩
      rw [hnorm] at hu
      exact absurd hu (by simp)
    · simp only [hcreate normalized]
      simp [AppError.message, hs1, hs2, hs3, not_le.mpr h1, hop, h4]

theorem storage_failure_status_mapping_witness :
    ((CreateTransactionHandler.Handle
        (⟨fun _ => .error "timeout", fun _ => .ok none, fun t => .ok t⟩ : Collaborators) 0
        (some ⟨1, 1, 50⟩)).1 =
      (404, .errMsg ("account not found: " ++ "timeout")))
    ∧ ((CreateTransactionHandler.Handle
        (⟨fun _ => .ok (some ⟨1, "12345678900", 0⟩), fun _ => .ok (some ⟨1, "Normal Purchase"⟩),
          fun _ => .error "db insert failed"⟩ : Collaborators) 0
        (some ⟨1, 1, 50⟩)).1 =
      (500, .errMsg "Failed to create transaction")) := by
  constructor
  · exact (storage_failure_status_mapping
      ⟨fun _ => .error "timeout", fun _ => .ok none, fun t => .ok t⟩ 0 ⟨1, 1, 50⟩
      ⟨1, "x", 0⟩ (by decide) (by decide) (by decide) (by decide)).1 "timeout" rfl
  · exact (storage_failure_status_mapping
      ⟨fun _ => .ok (some ⟨1, "12345678900", 0⟩), fun _ => .ok (some ⟨1, "Normal Purchase"⟩),
        fun _ => .error "db insert failed"⟩ 0 ⟨1, 1, 50⟩
      ⟨1, "12345678900", 0⟩ (by decide) (by decide) (by decide) (by decide)).2.2
      ⟨1, "Normal Purchase"⟩ "db insert failed" rfl rfl (fun _ => rfl)
      (by decide) (by decide) (by decide)

/-! ## Idempotency middleware, sequential semantics
(the middleware package: IdempotencyMiddleware, cachedResponse, recorder).
This is the request-handling path of the middleware specialized to
sequential execution, one request running to completion before the next:
the winner of a claim stores a completed record or deletes the key and
closes its marker before returning, so between requests the shared map
holds only completed records and the Load either misses or observes a
cachedResponse. The concurrent small-step semantics follows below. -/

/-- cachedResponse: the stored HTTP response (status, body, store time). -/
structure CachedResponse where
  status : Nat
  body : String
  time : Nat
  deriving Repr, DecidableEq

/-- The shared key-to-record map, as an association list. sync.Map Store
replaces, Delete removes. -/
abbrev Cache := List (String × CachedResponse)

def lookupKey : Cache → String → Option CachedResponse
  | [], _ => none
  | (k, v) :: rest, key => if k == key then some v else lookupKey rest key

def storeKey : Cache → String → CachedResponse → Cache
  | [], key, v => [(key, v)]
  | (k, w) :: rest, key, v =>
    if k == key then (key, v) :: rest else (k, w) :: storeKey rest key v

def deleteKey : Cache → String → Cache
  | [], _ => []
  | (k, w) :: rest, key =>
    if k == key then deleteKey rest key else (k, w) :: deleteKey rest key

/-- One inbound request: HTTP method, Idempotency-Key header value (the
empty string for an absent header), the downstream handler response it
would produce, and the wall-clock store time. -/
structure MwRequest where
  method : String
  key : String
  handler : Nat × String
  now : Nat
  deriving Repr, DecidableEq

structure MwResult where
  status : Nat
  body : String
  cache : Cache
  handlerInvoked : Bool
  deriving Repr, DecidableEq

/-- The middleware handling one request under sequential execution. -/
def serveOne (cache : Cache) (r : MwRequest) : MwResult :=
  if r.method == "GET" || r.method == "HEAD" || r.method == "OPTIONS" then
    { status := r.handler.1, body := r.handler.2, cache := cache, handlerInvoked := true }
  else if r.key == "" then
    { status := r.handler.1, body := r.handler.2, cache := cache, handlerInvoked := true }
  else
    match lookupKey cache r.key with
    | some resp =>
      { status := resp.status, body := resp.body, cache := cache, handlerInvoked := false }
    | none =>
      let st := r.handler.1
      let b := r.handler.2
      if 200 ≤ st ∧ st < 300 then
        { status := st, body := b, cache := storeKey cache r.key ⟨st, b, r.now⟩,
          handlerInvoked := true }
      else
        { status := st, body := b, cache := deleteKey cache r.key, handlerInvoked := true }

/-- The cache after serving a whole sequence of requests. -/
def serveSeq (cache : Cache) : List MwRequest → Cache
  | [] => cache
  | r :: rest => serveSeq (serveOne cache r).cache rest

/-- Every cached record has a 2xx status. -/
def allCached2xx (cache : Cache) : Prop :=
  ∀ p ∈ cache, 200 ≤ p.2.status ∧ p.2.status < 300

theorem lookupKey_storeKey_ne (cache : Cache) (key k : String) (v : CachedResponse)
    (h : k ≠ key) : lookupKey (storeKey cache key v) k = lookupKey cache k := by
  induction cache with
  | nil => simp [storeKey, lookupKey, Ne.symm h]
  | cons p rest ih =>
    by_cases hk : p.1 = key
    · simp [storeKey, lookupKey, hk, h, Ne.symm h]
    · simp only [storeKey]
      rw [if_neg (by simp [hk])]
      by_cases hpk : p.1 = k
      · simp [lookupKey, hpk]
      · simp [lookupKey, hpk, ih]

theorem lookupKey_deleteKey_ne (cache : Cache) (key k : String)
    (h : k ≠ key) : lookupKey (deleteKey cache key) k = lookupKey cache k := by
  induction cache with
  | nil => simp [deleteKey]
  | cons p rest ih =>
    by_cases hk : p.1 = key
    · simp [deleteKey, lookupKey, hk, Ne.symm h, ih]
    · simp only [deleteKey]
      rw [if_neg (by simp [hk])]
      by_cases hpk : p.1 = k
      · simp [lookupKey, hpk]
      · simp [lookupKey, hpk, ih]

theorem lookupKey_deleteKey_self (cache : Cache) (key : String) :
    lookupKey (deleteKey cache key) key = none := by
  induction cache with
  | nil => simp [deleteKey, lookupKey]
  | cons p rest ih =>
    by_cases hk : p.1 = key
    · simp [deleteKey, hk, ih]
    · simp [deleteKey, hk, lookupKey, ih]

/-- serveOne never disturbs an existing completed record. -/
theorem lookupKey_serveOne_preserved (cache : Cache) (r : MwRequest) (k : String)
    (v : CachedResponse) (h : lookupKey cache k = some v) :
    lookupKey (serveOne cache r).cache k = some v := by
  unfold serveOne
  by_cases hm : (r.method == "GET" || r.method == "HEAD" || r.method == "OPTIONS") = true
  · simp [hm, h]
  · simp only [Bool.not_eq_true] at hm
    by_cases hk : (r.key == "") = true
    · simp [hm, hk, h]
    · simp only [Bool.not_eq_true] at hk
      rcases hl : lookupKey cache r.key with _ | resp
      · have hne : k ≠ r.key := by
          intro heq
          rw [heq, hl] at h
          exact Option.noConfusion h
        by_cases h2 : 200 ≤ r.handler.1 ∧ r.handler.1 < 300
        · simp [hm, hk, hl, h2, lookupKey_storeKey_ne _ _ _ _ hne, h]
        · simp [hm, hk, hl, h2, lookupKey_deleteKey_ne _ _ _ hne, h]
      · simp [hm, hk, hl, h]

theorem lookupKey_serveSeq_preserved (reqs : List MwRequest) (cache : Cache) (k : String)
    (v : CachedResponse) (h : lookupKey cache k = some v) :
    lookupKey (serveSeq cache reqs) k = some v := by
  induction reqs generalizing cache with
  | nil => exact h
  | cons r rest ih => exact ih _ (lookupKey_serveOne_preserved cache r k v h)

/-- Claim C2: when a completed record exists for a key supplied on a
non-idempotent method, the middleware answers with the stored status and
body verbatim without invoking the handler and without touching the cache;
the record survives any sequence of later requests, and a later request
with the same key is again answered from the record. -/
theorem idempotency_completed_record_served (cache : Cache) (k : String) (v : CachedResponse)
    (m : String) (handler : Nat × String) (now : Nat) (reqs : List MwRequest)
    (handler2 : Nat × String) (now2 : Nat)
    (hm : ¬(m = "GET" ∨ m = "HEAD" ∨ m = "OPTIONS")) (hk : k ≠ "")
    (hv : lookupKey cache k = some v) :
    serveOne cache ⟨m, k, handler, now⟩ =
      { status := v.status, body := v.body, cache := cache, handlerInvoked := false }
    ∧ lookupKey (serveSeq cache reqs) k = some v
    ∧ serveOne (serveSeq cache reqs) ⟨m, k, handler2, now2⟩ =
      { status := v.status, body := v.body, cache := serveSeq cache reqs,
        handlerInvoked := false } := by
  push_neg at hm
  have hm' : (m == "GET" || m == "HEAD" || m == "OPTIONS") = false := by
    simp [hm.1, hm.2.1, hm.2.2]
  have hpres := lookupKey_serveSeq_preserved reqs cache k v hv
  refine ⟨?_, hpres, ?_⟩
  · simp [serveOne, hm', hk, hv]
  · simp [serveOne, hm', hk, hpres]

theorem idempotency_completed_record_served_witness :
    serveOne [("k1", ⟨201, "done", 5⟩)] ⟨"POST", "k1", (500, "x"), 9⟩ =
      { status := 201, body := "done", cache := [("k1", ⟨201, "done", 5⟩)],
        handlerInvoked := false }
    ∧ lookupKey (serveSeq [("k1", ⟨201, "done", 5⟩)] [⟨"POST", "k2", (204, "y"), 10⟩]) "k1" =
      some ⟨201, "done", 5⟩
    ∧ serveOne (serveSeq [("k1", ⟨201, "done", 5⟩)] [⟨"POST", "k2", (204, "y"), 10⟩])
        ⟨"POST", "k1", (500, "z"), 11⟩ =
      { status := 201, body := "done",
        cache := serveSeq [("k1", ⟨201, "done", 5⟩)] [⟨"POST", "k2", (204, "y"), 10⟩],
        handlerInvoked := false } :=
  idempotency_completed_record_served [("k1", ⟨201, "done", 5⟩)] "k1" ⟨201, "done", 5⟩
    "POST" (500, "x") 9 [⟨"POST", "k2", (204, "y"), 10⟩] (500, "z") 11
    (by decide) (by decide) (by decide)

theorem mem_deleteKey (cache : Cache) (key : String) (p : String × CachedResponse)
    (h : p ∈ deleteKey cache key) : p ∈ cache := by
  induction cache with
  | nil => simp [deleteKey] at h
  | cons q rest ih =>
    rcases q with ⟨a, w⟩
    simp only [deleteKey] at h
    by_cases hk : (a == key) = true
    · rw [if_pos hk] at h
      exact List.mem_cons_of_mem _ (ih h)
    · rw [if_neg hk] at h
      rcases List.mem_cons.mp h with h1 | h1
      · exact h1 ▸ List.mem_cons_self _ _
      · exact List.mem_cons_of_mem _ (ih h1)

theorem mem_storeKey (cache : Cache) (key : String) (v : CachedResponse)
    (p : String × CachedResponse) (h : p ∈ storeKey cache key v) :
    p = (key, v) ∨ p ∈ cache := by
  induction cache with
  | nil => simp [storeKey] at h; exact Or.inl h
  | cons q rest ih =>
    rcases q with ⟨a, w⟩
    simp only [storeKey] at h
    by_cases hk : (a == key) = true
    · rw [if_pos hk] at h
      rcases List.mem_cons.mp h with h1 | h1
      · exact Or.inl h1
      · exact Or.inr (List.mem_cons_of_mem _ h1)
    · rw [if_neg hk] at h
      rcases List.mem_cons.mp h with h1 | h1
      · exact Or.inr (h1 ▸ List.mem_cons_self _ _)
      · rcases ih h1 with h2 | h2
        · exact Or.inl h2
        · exact Or.inr (List.mem_cons_of_mem _ h2)

/-- serveOne only ever adds 2xx records: it preserves the all-2xx cache
invariant for every request. -/
theorem allCached2xx_serveOne (cache : Cache) (r : MwRequest) (h : allCached2xx cache) :
    allCached2xx (serveOne cache r).cache := by
  unfold serveOne
  by_cases hm : (r.method == "GET" || r.method == "HEAD" || r.method == "OPTIONS") = true
  · simpa [hm] using h
  · simp only [Bool.not_eq_true] at hm
    by_cases hk : (r.key == "") = true
    · simpa [hm, hk] using h
    · simp only [Bool.not_eq_true] at hk
      rcases hl : lookupKey cache r.key with _ | resp
      · by_cases h2 : 200 ≤ r.handler.1 ∧ r.handler.1 < 300
        · simp only [hm, hk, hl, h2, if_true, if_false, Bool.false_eq_true]
          intro p hp
          rcases mem_storeKey _ _ _ _ hp with h3 | h3
          · rw [h3]; exact h2
          · exact h p h3
        · simp only [hm, hk, hl, h2, if_true, if_false, Bool.false_eq_true]
          intro p hp
          exact h p (mem_deleteKey _ _ _ hp)
      · simpa [hm, hk, hl] using h

/-- Claim C3: a non-2xx handler outcome is not cached: the key reverts to
absent, a subsequent request with the same key on a non-idempotent method
invokes the handler again rather than being short-circuited, and only 2xx
outcomes are ever cached (the all-2xx invariant is preserved by every
request). -/
theorem idempotency_failure_not_cached (cache : Cache) (k m : String) (st : Nat) (b : String)
    (now : Nat) (m2 : String) (handler2 : Nat × String) (now2 : Nat)
    (hm : ¬(m = "GET" ∨ m = "HEAD" ∨ m = "OPTIONS")) (hk : k ≠ "")
    (habs : lookupKey cache k = none) (hfail : ¬(200 ≤ st ∧ st < 300))
    (hm2 : ¬(m2 = "GET" ∨ m2 = "HEAD" ∨ m2 = "OPTIONS")) :
    serveOne cache ⟨m, k, (st, b), now⟩ =
      { status := st, body := b, cache := deleteKey cache k, handlerInvoked := true }
    ∧ lookupKey (serveOne cache ⟨m, k, (st, b), now⟩).cache k = none
    ∧ (serveOne (serveOne cache ⟨m, k, (st, b), now⟩).cache
        ⟨m2, k, handler2, now2⟩).handlerInvoked = true
    ∧ (∀ r, allCached2xx cache → allCached2xx (serveOne cache r).cache) := by
  push_neg at hm hm2
  have hm' : (m == "GET" || m == "HEAD" || m == "OPTIONS") = false := by
    simp [hm.1, hm.2.1, hm.2.2]
  have hm2' : (m2 == "GET" || m2 == "HEAD" || m2 == "OPTIONS") = false := by
    simp [hm2.1, hm2.2.1, hm2.2.2]
  have hfirst : serveOne cache ⟨m, k, (st, b), now⟩ =
      { status := st, body := b, cache := deleteKey cache k, handlerInvoked := true } := by
    simp [serveOne, hm', hk, habs, hfail]
  refine ⟨hfirst, ?_, ?_, fun r => allCached2xx_serveOne cache r⟩
  · rw [hfirst]
    exact lookupKey_deleteKey_self cache k
  · rw [hfirst]
    have habs2 : lookupKey (deleteKey cache k) k = none := lookupKey_deleteKey_self cache k
    by_cases h2 : 200 ≤ handler2.1 ∧ handler2.1 < 300 <;>
      simp [serveOne, hm2', hk, habs2, h2]

theorem idempotency_failure_not_cached_witness :
    serveOne [] ⟨"POST", "kx", (500, "boom"), 3⟩ =
      { status := 500, body := "boom", cache := deleteKey [] "kx", handlerInvoked := true }
    ∧ lookupKey (serveOne [] ⟨"POST", "kx", (500, "boom"), 3⟩).cache "kx" = none
    ∧ (serveOne (serveOne [] ⟨"POST", "kx", (500, "boom"), 3⟩).cache
        ⟨"POST", "kx", (201, "ok"), 4⟩).handlerInvoked = true
    ∧ (∀ r, allCached2xx [] → allCached2xx (serveOne [] r).cache) :=
  idempotency_failure_not_cached [] "kx" "POST" 500 "boom" 3 "POST" (201, "ok") 4
    (by decide) (by decide) (by decide) (by decide) (by decide)

/-- Claim C6 counterexample: a POST carrying no Idempotency-Key header (the
header value is the empty string) is not rejected with 400: the middleware
passes it straight to the downstream handler, which runs the business logic
and answers with its own status (201 here). -/
theorem missing_key_rejected_counterexample :
    (serveOne [] ⟨"POST", "", (201, "created"), 0⟩).status = 201
    ∧ (serveOne [] ⟨"POST", "", (201, "created"), 0⟩).handlerInvoked = true
    ∧ (serveOne [] ⟨"POST", "", (201, "created"), 0⟩).status ≠ 400 := by
  decide

/-- Claim C6 amended: a POST without an Idempotency-Key header passes
through the idempotency coordinator unconditionally: the downstream
business logic is invoked, its response is returned unchanged, and no
deduplication state is recorded; the missing key is not rejected with 400
(no component of the service checks for it). -/
theorem missing_key_passthrough (cache : Cache) (handler : Nat × String) (now : Nat) :
    serveOne cache ⟨"POST", "", handler, now⟩ =
      { status := handler.1, body := handler.2, cache := cache, handlerInvoked := true } := by
  simp [serveOne]

/-! ## Idempotency middleware, concurrent small-step semantics

Interleaving semantics of IdempotencyMiddleware for N goroutines handling
non-GET requests that all carry the same key, with a fixed downstream
handler. The shared sync.Map restricted to that key is an optional entry:
a processingMarker (identified by the goroutine that created it) or a
cachedResponse. A closed done channel is recorded by its marker owner.
Each atomic step is one sync.Map operation, channel wait, or handler run;
the final store-or-delete plus close(done) is taken as one step, which only
restricts the set of interleavings and so is sound for exhibiting a
reachable execution. Unchecked Go type assertions (x.(*T) without the ok
form) panic when the dynamic type differs; the middleware uses them after
waiting on a marker and on the value returned by LoadOrStore. -/

/-- The value stored in the shared map under the key. -/
inductive Entry where
  | marker (owner : Nat)
  | completed (status : Nat) (body : String)
  deriving Repr, DecidableEq

/-- How a goroutine ended: with a written response, or by panicking on a
failed unchecked type assertion. -/
inductive Outcome where
  | responded (status : Nat) (body : String)
  | panicked
  deriving Repr, DecidableEq

/-- Program counter of one goroutine inside the middleware body. -/
inductive ThreadPC where
  | start
  | waitA (owner : Nat)
  | loadAfterWaitA
  | claim
  | waitB (owner : Nat)
  | loadAfterWaitB
  | invoke
  | finish (status : Nat) (body : String)
  | halted (out : Outcome)
  deriving Repr, DecidableEq

/-- Shared and per-goroutine state of the interleaved execution. -/
structure MwConfig where
  entry : Option Entry
  closed : List Nat
  threads : List ThreadPC
  invocations : Nat
  deriving Repr, DecidableEq

def setPC (cfg : MwConfig) (i : Nat) (pc : ThreadPC) : MwConfig :=
  { cfg with threads := cfg.threads.set i pc }

/-- One atomic step of goroutine i (no-op when it is blocked on an unclosed
channel or already halted). -/
def threadStep (handler : Nat × String) (cfg : MwConfig) (i : Nat) : MwConfig :=
  match cfg.threads.get? i with
  | none => cfg
  | some pc =>
    match pc with
    | .start =>
      match cfg.entry with
      | some (.completed s b) => setPC cfg i (.halted (.responded s b))
      | some (.marker m) => setPC cfg i (.waitA m)
      | none => setPC cfg i .claim
    | .waitA m =>
      if cfg.closed.contains m then setPC cfg i .loadAfterWaitA else cfg
    | .loadAfterWaitA =>
      match cfg.entry with
      | some (.completed s b) => setPC cfg i (.halted (.responded s b))
      | some (.marker _) => setPC cfg i (.halted .panicked)
      | none => setPC cfg i .claim
    | .claim =>
      match cfg.entry with
      | none => { setPC cfg i .invoke with entry := some (.marker i) }
      | some (.marker m) => setPC cfg i (.waitB m)
      | some (.completed _ _) => setPC cfg i (.halted .panicked)
    | .waitB m =>
      if cfg.closed.contains m then setPC cfg i .loadAfterWaitB else cfg
    | .loadAfterWaitB =>
      match cfg.entry with
      | some (.completed s b) => setPC cfg i (.halted (.responded s b))
      | some (.marker _) => setPC cfg i (.halted .panicked)
      | none => setPC cfg i .invoke
    | .invoke =>
      { setPC cfg i (.finish handler.1 handler.2) with invocations := cfg.invocations + 1 }
    | .finish s b =>
      let cfg1 :=
        if 200 ≤ s ∧ s < 300 then { cfg with entry := some (.completed s b) }
        else { cfg with entry := none }
      { setPC cfg1 i (.halted (.responded s b)) with closed := i :: cfg1.closed }
    | .halted _ => cfg

/-- Run the machine under an explicit schedule of goroutine ids. -/
def runSchedule (handler : Nat × String) (cfg : MwConfig) : List Nat → MwConfig
  | [] => cfg
  | i :: rest => runSchedule handler (threadStep handler cfg i) rest

/-- Two goroutines, key initially absent, nothing closed, no invocations. -/
def initialTwo : MwConfig :=
  { entry := none, closed := [], threads := [.start, .start], invocations := 0 }

/-- Claim C4 (failing execution): two concurrent requests with the same key
and a fixed handler that returns 201. Under the schedule in which goroutine
1 performs its initial Load (missing the absent key), goroutine 0 then
claims the key, runs the handler, stores the completed record and closes
its marker, and goroutine 1 only then reaches LoadOrStore, LoadOrStore
hands goroutine 1 the completed cachedResponse and the middleware performs
the unchecked assertion actual.(*processingMarker), which panics: only one
handler invocation happens, but the two responses are not byte-identical —
goroutine 1 writes no response at all. -/
theorem idempotency_concurrent_panic_trace :
    runSchedule (201, "created") initialTwo [1, 0, 0, 0, 0, 1] =
      { entry := some (.completed 201 "created"), closed := [0],
        threads := [.halted (.responded 201 "created"), .halted .panicked],
        invocations := 1 }
    ∧ (runSchedule (201, "created") initialTwo [1, 0, 0, 0, 0, 1]).threads.get? 1 =
      some (.halted .panicked) := by
  decide

/-! ## List-transactions pipeline (GetTransactionsHandler.Handle and
internal/core/services/processors/get_transactions_processor.go) -/

structure GetTransactionsRequest where
  accountID : Int
  limit : Int
  offset : Int
  deriving Repr, DecidableEq

structure PaginationMetadata where
  total : Int
  limit : Int
  offset : Int
  pages : Int
  deriving Repr, DecidableEq

structure GetTransactionsResponse where
  transactions : List Transaction
  pagination : PaginationMetadata
  deriving Repr, DecidableEq

/-- The storage collaborators of the get-transactions processor. -/
structure GetTransactionsCollabs where
  accountFindByID : Int → Except String (Option Account)
  findByAccountIDPaginated : Int → Int → Int → Except String (List Transaction × Int)

/-- GetTransactionsProcessor.validatePagination: in Go this method mutates
a struct received by value, so the clamping affects only its local copy —
the caller never observes it. Returned here so the no-effect is explicit at
the call site. -/
def GetTransactionsProcessor.validatePagination (req : GetTransactionsRequest) :
    GetTransactionsRequest :=
  let req1 := if req.limit ≤ 0 ∨ req.limit > 100 then { req with limit := 50 } else req
  if req1.offset < 0 then { req1 with offset := 0 } else req1

/-- GetTransactionsProcessor.Process. Pages use Go int64 division, which
agrees with Lean division on the non-negative operands that occur. The
validatePagination call discards its result exactly as the Go call site
does (value receiver). -/
def GetTransactionsProcessor.Process (c : GetTransactionsCollabs)
    (req : GetTransactionsRequest) : Except String GetTransactionsResponse :=
  match c.accountFindByID req.accountID with
  | .error msg => .error ("failed to find account: " ++ msg)
  | .ok none => .error ("account with id " ++ toString req.accountID ++ " not found")
  | .ok (some _account) =>
    match c.findByAccountIDPaginated req.accountID req.limit req.offset with
    | .error msg => .error ("failed to get transactions: " ++ msg)
    | .ok (transactions, total) =>
      let _ := GetTransactionsProcessor.validatePagination req
      let pages := (total + req.limit - 1) / req.limit
      let pages := if pages < 1 then 1 else pages
      .ok { transactions := transactions,
            pagination := { total := total, limit := req.limit, offset := req.offset,
                            pages := pages } }

/-- Query-string parameter as the handler sees it: absent, present but not
parseable by strconv.Atoi, or parsed to an integer. -/
abbrev QueryParam := Option (Option Int)

inductive GetHandlerBody where
  | errMsg (s : String)
  | page (r : GetTransactionsResponse)
  deriving Repr, DecidableEq

/-- The tail of GetTransactionsHandler.Handle once all parameters are
resolved: the processor call and its error mapping. -/
def GetTransactionsHandler.callProcessor (c : GetTransactionsCollabs)
    (accountID limit offset : Int) : Nat × GetHandlerBody :=
  match GetTransactionsProcessor.Process c
      { accountID := accountID, limit := limit, offset := offset } with
  | .error msg =>
    if strContains msg "not found" then (404, .errMsg msg)
    else (500, .errMsg "Failed to get transactions")
  | .ok resp => (200, .page resp)

/-- The part of Handle after the effective limit is fixed: offset parsing,
then the processor call. -/
def GetTransactionsHandler.afterLimit (c : GetTransactionsCollabs) (accountID limit : Int)
    (offsetParam : QueryParam) : Nat × GetHandlerBody :=
  match offsetParam with
  | some none => (400, .errMsg "Invalid offset")
  | some (some parsedOffset) =>
    if parsedOffset < 0 then (400, .errMsg "Invalid offset")
    else GetTransactionsHandler.callProcessor c accountID limit parsedOffset
  | none => GetTransactionsHandler.callProcessor c accountID limit 0

/-- GetTransactionsHandler.Handle: accountIDParam is the parse of the URL
parameter (none when not an integer); limitParam and offsetParam the query
parameters. -/
def GetTransactionsHandler.Handle (c : GetTransactionsCollabs)
    (accountIDParam : Option Int) (limitParam offsetParam : QueryParam) :
    Nat × GetHandlerBody :=
  match accountIDParam with
  | none => (400, .errMsg "Invalid account ID")
  | some accountID =>
    if accountID ≤ 0 then (400, .errMsg "Invalid account ID")
    else
      match limitParam with
      | some none => (400, .errMsg "Invalid limit")
      | some (some parsedLimit) =>
        if parsedLimit ≤ 0 then (400, .errMsg "Invalid limit")
        else GetTransactionsHandler.afterLimit c accountID parsedLimit offsetParam
      | none => GetTransactionsHandler.afterLimit c accountID 50 offsetParam

/-- Claim C8 counterexample: a list-transactions request with limit=101 —
above the documented maximum of 100 — is not rejected: the handler only
rejects non-positive or unparsable limits, the processor's validatePagination
clamps a by-value copy after the query has already run, and the request is
served with limit 101, which the pagination metadata reports. -/
theorem pagination_limit_bound_counterexample :
    GetTransactionsHandler.Handle
        (⟨fun _ => .ok (some ⟨1, "12345678900", 0⟩), fun _ _ _ => .ok ([], 0)⟩ :
          GetTransactionsCollabs) (some 1) (some (some 101)) none =
      (200, .page { transactions := [],
                    pagination := { total := 0, limit := 101, offset := 0, pages := 1 } })
    ∧ (GetTransactionsHandler.Handle
        (⟨fun _ => .ok (some ⟨1, "12345678900", 0⟩), fun _ _ _ => .ok ([], 0)⟩ :
          GetTransactionsCollabs) (some 1) (some (some 101)) none).1 ≠ 400 := by
  decide

/-- Claim C8 amended: the effective limit defaults to 50 when no limit
parameter is supplied; a supplied limit is rejected with 400 as invalid
only when it is unparsable or non-positive; every parsed limit of at least
1 — including values above 100 — is accepted and used as-is for the query;
and the pagination metadata reports the effective limit used. -/
theorem pagination_limit_handling (c : GetTransactionsCollabs) (aID : Int) (acct : Account)
    (txs : List Transaction) (total n : Int)
    (hacc : 0 < aID) (hfind : c.accountFindByID aID = .ok (some acct)) :
    (c.findByAccountIDPaginated aID 50 0 = .ok (txs, total) →
      GetTransactionsHandler.Handle c (some aID) none none =
        (200, .page { transactions := txs,
                      pagination := { total := total, limit := 50, offset := 0,
                                      pages := if (total + 50 - 1) / 50 < 1 then 1
                                               else (total + 50 - 1) / 50 } }))
    ∧ GetTransactionsHandler.Handle c (some aID) (some none) none =
        (400, .errMsg "Invalid limit")
    ∧ (n ≤ 0 →
      GetTransactionsHandler.Handle c (some aID) (some (some n)) none =
        (400, .errMsg "Invalid limit"))
    ∧ (1 ≤ n → c.findByAccountIDPaginated aID n 0 = .ok (txs, total) →
      GetTransactionsHandler.Handle c (some aID) (some (some n)) none =
        (200, .page { transactions := txs,
                      pagination := { total := total, limit := n, offset := 0,
                                      pages := if (total + n - 1) / n < 1 then 1
                                               else (total + n - 1) / n } })) := by
  refine ⟨?_, ?_, ?_, ?_⟩
  · intro hpage
    simp [GetTransactionsHandler.Handle, GetTransactionsHandler.afterLimit,
      GetTransactionsHandler.callProcessor, GetTransactionsProcessor.Process,
      not_le.mpr hacc, hfind, hpage]
  · simp [GetTransactionsHandler.Handle, not_le.mpr hacc]
  · intro hn
    simp [GetTransactionsHandler.Handle, not_le.mpr hacc, hn]
  · intro hn hpage
    simp [GetTransactionsHandler.Handle, GetTransactionsHandler.afterLimit,
      GetTransactionsHandler.callProcessor, GetTransactionsProcessor.Process,
      not_le.mpr hacc, not_le.mpr (by omega : (0 : Int) < n), hfind, hpage]

theorem pagination_limit_handling_witness :
    (GetTransactionsHandler.Handle
        (⟨fun _ => .ok (some ⟨1, "12345678900", 0⟩), fun _ _ _ => .ok ([], 2)⟩ :
          GetTransactionsCollabs) (some 1) none none =
      (200, .page { transactions := [],
                    pagination := { total := 2, limit := 50, offset := 0,
                                    pages := if ((2 : Int) + 50 - 1) / 50 < 1 then 1
                                             else ((2 : Int) + 50 - 1) / 50 } }))
    ∧ (GetTransactionsHandler.Handle
        (⟨fun _ => .ok (some ⟨1, "12345678900", 0⟩), fun _ _ _ => .ok ([], 2)⟩ :
          GetTransactionsCollabs) (some 1) (some (some 101)) none =
      (200, .page { transactions := [],
                    pagination := { total := 2, limit := 101, offset := 0,
                                    pages := if ((2 : Int) + 101 - 1) / 101 < 1 then 1
                                             else ((2 : Int) + 101 - 1) / 101 } })) := by
  constructor
  · exact (pagination_limit_handling
      ⟨fun _ => .ok (some ⟨1, "12345678900", 0⟩), fun _ _ _ => .ok ([], 2)⟩ 1
      ⟨1, "12345678900", 0⟩ [] 2 101 (by decide) rfl).1 rfl
  · exact (pagination_limit_handling
      ⟨fun _ => .ok (some ⟨1, "12345678900", 0⟩), fun _ _ _ => .ok ([], 2)⟩ 1
      ⟨1, "12345678900", 0⟩ [] 2 101 (by decide) rfl).2.2.2 (by decide) rfl

end Banking
